import Mathlib

/-!
Shallow embedding of `commoncode/filetype.py`: low level file type utilities
(type classification, permission checks, last-modified dates, and the memoized
recursive counter for file count / total size).

Python functions in this module return heterogeneous values (`None`, booleans,
or strings, thanks to Python's short-circuiting `and` / `or`), so results are
modelled by an explicit `PyVal` type with Python truthiness. The operating
system is modelled by an `FS` record providing the primitives the module calls
(`os.path.islink`, `os.path.isfile`, `os.path.isdir`, `os.path.exists`,
`os.readlink`, `os.access`, `os.path.getmtime`, `os.path.getsize`,
`os.scandir`, and the `commoncode.system.on_posix` flag).
-/

/-- A Python runtime value as returned by the functions of this module:
`None`, a boolean, or a string. -/
inductive PyVal where
  | none
  | bool (b : Bool)
  | str (s : String)
deriving DecidableEq, Repr

/-- Python truthiness: `None` and `""` are falsy, a boolean is itself. -/
def pyTruthy : PyVal → Bool
  | PyVal.none => false
  | PyVal.bool b => b
  | PyVal.str s => s ≠ ""

/-- Python `a and b` on values: returns `a` when `a` is falsy, else `b`. -/
def pyAnd (a b : PyVal) : PyVal := if pyTruthy a then b else a

/-- Python `a or b` on values: returns `a` when `a` is truthy, else `b`. -/
def pyOr (a b : PyVal) : PyVal := if pyTruthy a then a else b

/-- Python `not a`: always a boolean. -/
def pyNot (a : PyVal) : PyVal := PyVal.bool (!pyTruthy a)

/-- The filesystem and platform environment seen by the module: one field per
OS primitive the Python source calls. `readlink` returns `Option.none` when
`os.readlink` raises a `UnicodeEncodeError`. `granted` is the set of
permission bits (`R_OK = 4`, `W_OK = 2`, `X_OK = 1`) that `os.access` would
grant for the path; it is empty for a path that does not exist. `getmtime` is
the last-modification timestamp in whole seconds since the Unix epoch.
`children` lists the entry names `os.scandir` yields for a directory path. -/
structure FS where
  islink : String → Bool
  isfile : String → Bool
  isdir : String → Bool
  pexists : String → Bool
  readlink : String → Option String
  granted : String → Nat
  getmtime : String → Int
  getsize : String → Nat
  children : String → List String
  on_posix : Bool

/-- `os.R_OK`. -/
def R_OK : Nat := 4
/-- `os.W_OK`. -/
def W_OK : Nat := 2
/-- `os.X_OK`. -/
def X_OK : Nat := 1

/-- `os.access(path, mode)`: true iff every requested permission bit is
granted. -/
def osAccess (fs : FS) (p : String) (mode : Nat) : Bool :=
  mode &&& fs.granted p == mode

/-- Index just past the last `/` of `p`, or `0` when `p` has no slash
(`p.rfind(sep) + 1` in `posixpath`). -/
def lastSlashEnd (p : String) : Nat :=
  (p.toList.reverse.findIdx? (· = '/')).elim 0 (fun i => p.length - i)

/-- `posixpath.dirname`: the head of `p` up to its last slash, with trailing
slashes stripped unless the head is all slashes. -/
def dirname (p : String) : String :=
  let head := String.mk (p.toList.take (lastSlashEnd p))
  if head ≠ "" ∧ ¬ head.toList.all (· = '/') then
    String.mk (head.toList.reverse.dropWhile (· = '/')).reverse
  else head

/-- `posixpath.join(a, b)` for two components, as used by the source:
an absolute `b` replaces `a`; otherwise a `/` separates them unless `a` is
empty or already ends with one. -/
def osJoin (a b : String) : String :=
  if b.toList.head? = Option.some '/' then b
  else if a = "" ∨ a.toList.getLast? = Option.some '/' then a ++ b
  else a ++ "/" ++ b

/-- `is_link(location)`: `location and os.path.islink(location)`. -/
def is_link (fs : FS) (location : String) : PyVal :=
  pyAnd (PyVal.str location) (PyVal.bool (fs.islink location))

/-- `get_link_target(location)`: the raw link target, starting from `""` and
set by `os.readlink` only on POSIX for a link, with a `UnicodeEncodeError`
swallowed (leaving `""`). -/
def get_link_target (fs : FS) (location : String) : String :=
  if fs.on_posix && pyTruthy (is_link fs location) then
    match fs.readlink location with
    | Option.some t => t
    | Option.none => ""
  else ""

/-- `is_broken_link(location)`: on POSIX and for a link, evaluates
`target and not os.path.exists(os.path.join(os.path.dirname(location), target))`;
otherwise falls through and returns `None`. -/
def is_broken_link (fs : FS) (location : String) : PyVal :=
  if fs.on_posix && pyTruthy (is_link fs location) then
    let target := get_link_target fs location
    let target_loc := osJoin (dirname location) target
    pyAnd (PyVal.str target) (PyVal.bool (!fs.pexists target_loc))
  else PyVal.none

/-- `is_file(location, follow_symlinks=False)`:
`_is_file = location and os.path.isfile(location)`, and under non-follow
semantics additionally `and not is_link(location) and not is_broken_link(location)`. -/
def is_file (fs : FS) (location : String) (follow_symlinks : Bool := false) : PyVal :=
  let _is_file := pyAnd (PyVal.str location) (PyVal.bool (fs.isfile location))
  if follow_symlinks then _is_file
  else
    pyAnd (pyAnd _is_file (pyNot (is_link fs location))) (pyNot (is_broken_link fs location))

/-- `is_dir(location, follow_symlinks=False)`:
`_is_dir = location and os.path.isdir(location) and not is_file(location)`,
and under non-follow semantics additionally
`and not is_link(location) and not is_broken_link(location)`. -/
def is_dir (fs : FS) (location : String) (follow_symlinks : Bool := false) : PyVal :=
  let _is_dir :=
    pyAnd (pyAnd (PyVal.str location) (PyVal.bool (fs.isdir location)))
      (pyNot (is_file fs location))
  if follow_symlinks then _is_dir
  else
    pyAnd (pyAnd _is_dir (pyNot (is_link fs location))) (pyNot (is_broken_link fs location))

/-- `is_regular(location)`: `location and (is_file(location) or is_dir(location))`. -/
def is_regular (fs : FS) (location : String) : PyVal :=
  pyAnd (PyVal.str location) (pyOr (is_file fs location) (is_dir fs location))

/-- `is_special(location)`: `not is_regular(location)`. -/
def is_special (fs : FS) (location : String) : PyVal :=
  pyNot (is_regular fs location)

/-- The four type checkers of the `TYPES` registry, in its insertion order. -/
inductive TypeChecker where
  | link
  | file
  | dir
  | special
deriving DecidableEq, Repr

/-- Run one registry checker on a location. -/
def runChecker (fs : FS) (location : String) : TypeChecker → PyVal
  | TypeChecker.link => is_link fs location
  | TypeChecker.file => is_file fs location
  | TypeChecker.dir => is_dir fs location
  | TypeChecker.special => is_special fs location

/-- The `TYPES` mapping: checker → (short code, long code), in insertion order
link → file → directory → special. -/
def TYPES : List (TypeChecker × String × String) :=
  [(TypeChecker.link, ("l", "link")),
   (TypeChecker.file, ("f", "file")),
   (TypeChecker.dir, ("d", "directory")),
   (TypeChecker.special, ("s", "special"))]

/-- The loop of `get_type`: return the code of the first truthy checker
(`short and short_form or long_form` picks the form; both forms are non-empty
strings so Python's `and`/`or` idiom reduces to a plain conditional). -/
def getTypeLoop (fs : FS) (location : String) (short : Bool) :
    List (TypeChecker × String × String) → Option String
  | [] => Option.none
  | (tc, short_form, long_form) :: rest =>
    if pyTruthy (runChecker fs location tc) then
      Option.some (if short then short_form else long_form)
    else getTypeLoop fs location short rest

/-- `get_type(location, short=True)`: `None` for a falsy location, else the
first matching code in the fixed `TYPES` order. -/
def get_type (fs : FS) (location : String) (short : Bool := true) : Option String :=
  if pyTruthy (PyVal.str location) then getTypeLoop fs location short TYPES
  else Option.none

/-- `is_readable(location)`: `None` for a falsy location; `os.access` with
`R_OK | X_OK` on a directory and `R_OK` otherwise. -/
def is_readable (fs : FS) (location : String) : PyVal :=
  if pyTruthy (PyVal.str location) then
    if pyTruthy (is_dir fs location) then
      PyVal.bool (osAccess fs location (R_OK ||| X_OK))
    else PyVal.bool (osAccess fs location R_OK)
  else PyVal.none

/-- `is_writable(location)`: `None` for a falsy location; `os.access` with
`R_OK | W_OK | X_OK` on a directory and `R_OK | W_OK` otherwise. -/
def is_writable (fs : FS) (location : String) : PyVal :=
  if pyTruthy (PyVal.str location) then
    if pyTruthy (is_dir fs location) then
      PyVal.bool (osAccess fs location (R_OK ||| W_OK ||| X_OK))
    else PyVal.bool (osAccess fs location (R_OK ||| W_OK))
  else PyVal.none

/-- `is_executable(location)`: `None` for a falsy location; `os.access` with
`R_OK | W_OK | X_OK` on a directory and `X_OK` otherwise. -/
def is_executable (fs : FS) (location : String) : PyVal :=
  if pyTruthy (PyVal.str location) then
    if pyTruthy (is_dir fs location) then
      PyVal.bool (osAccess fs location (R_OK ||| W_OK ||| X_OK))
    else PyVal.bool (osAccess fs location X_OK)
  else PyVal.none

/-- `is_rwx(location)`:
`is_readable(location) and is_writable(location) and is_executable(location)`. -/
def is_rwx (fs : FS) (location : String) : PyVal :=
  pyAnd (pyAnd (is_readable fs location) (is_writable fs location))
    (is_executable fs location)

/-! ### Calendar model for `datetime.fromtimestamp(..., tz=timezone.utc).isoformat()[:10]`

The Python source formats the modification timestamp through the standard
`datetime` library. That library's contract is embedded here directly: the
proleptic Gregorian calendar date of `floor(ts / 86400)` days after
1970-01-01 (UTC), rendered zero-padded as `YYYY-MM-DD` (the first ten
characters of the ISO format). `datetime` only supports years 1..9999 and
raises beyond them, modelled by `Option`. Timestamps are modelled at whole
second resolution. -/

/-- Gregorian leap year rule. -/
def isLeap (y : Nat) : Bool := (y % 4 == 0 && y % 100 != 0) || y % 400 == 0

/-- Days in year `y`. -/
def yearLength (y : Nat) : Nat := if isLeap y then 366 else 365

/-- Days in month `m` of year `y` (months numbered 1..12). -/
def monthLength (y m : Nat) : Nat :=
  if m = 2 then (if isLeap y then 29 else 28)
  else if m = 4 ∨ m = 6 ∨ m = 9 ∨ m = 11 then 30
  else 31

/-- Fuelled loop of `stripYears`: each iteration consumes at least one day, so
fuel equal to the day count always suffices. -/
def stripYearsGo : Nat → Nat → Nat → Nat × Nat
  | 0, y, n => (y, n)
  | fuel + 1, y, n =>
    if yearLength y ≤ n then stripYearsGo fuel (y + 1) (n - yearLength y) else (y, n)

/-- Starting from year `y` with `n` days remaining, advance whole years:
returns the final year and the day-of-year offset (0-based). -/
def stripYears (y n : Nat) : Nat × Nat := stripYearsGo n y n

/-- Fuelled loop of `stripMonths`: at most eleven iterations happen, so fuel
12 always suffices. -/
def stripMonthsGo : Nat → Nat → Nat → Nat → Nat × Nat
  | 0, _, m, n => (m, n)
  | fuel + 1, y, m, n =>
    if m < 12 ∧ monthLength y m ≤ n then stripMonthsGo fuel y (m + 1) (n - monthLength y m)
    else (m, n)

/-- Starting from month `m` of year `y` with `n` days remaining, advance whole
months (never beyond month 12): returns the final month and the day-of-month
offset (0-based). -/
def stripMonths (y m n : Nat) : Nat × Nat := stripMonthsGo 12 y m n

/-- The proleptic Gregorian date `(year, month, day)` of the day `n` days
after 0001-01-01. -/
def civilFromDays (n : Nat) : Nat × Nat × Nat :=
  let yd := stripYears 1 n
  let md := stripMonths yd.1 1 yd.2
  (yd.1, md.1, md.2 + 1)

/-- Days from 0001-01-01 to the first day of year `y`. -/
def daysBeforeYear : Nat → Nat
  | 0 => 0
  | y + 1 => if y = 0 then 0 else daysBeforeYear y + yearLength y

/-- Days from the first day of year `y` to the first day of its month `m`. -/
def daysBeforeMonth (y : Nat) : Nat → Nat
  | 0 => 0
  | m + 1 => if m = 0 then 0 else daysBeforeMonth y m + monthLength y m

/-- Days from 0001-01-01 to the date `(y, m, d)`. -/
def daysFromCivil (y m d : Nat) : Nat :=
  daysBeforeYear y + daysBeforeMonth y m + (d - 1)

/-- `(y, m, d)` is a valid Gregorian calendar date. -/
def isValidDate (y m d : Nat) : Prop :=
  1 ≤ y ∧ 1 ≤ m ∧ m ≤ 12 ∧ 1 ≤ d ∧ d ≤ monthLength y m

/-- The decimal digit character of `n % 10`. -/
def digitChar (n : Nat) : Char := Char.ofNat (48 + n % 10)

/-- `%04d` for numbers below 10000: exactly four decimal digits. -/
def pad4 (n : Nat) : String :=
  String.mk [digitChar (n / 1000), digitChar (n / 100), digitChar (n / 10), digitChar n]

/-- `%02d` for numbers below 100: exactly two decimal digits. -/
def pad2 (n : Nat) : String :=
  String.mk [digitChar (n / 10), digitChar n]

/-- Render a `(year, month, day)` triple as `YYYY-MM-DD`. -/
def renderDate (ymd : Nat × Nat × Nat) : String :=
  pad4 ymd.1 ++ "-" ++ pad2 ymd.2.1 ++ "-" ++ pad2 ymd.2.2

/-- Days from 0001-01-01 to the Unix epoch 1970-01-01. -/
def epochDays : Nat := 719162

/-- Days from 0001-01-01 to 10000-01-01, the first day `datetime` rejects. -/
def maxDays : Nat := 3652059

/-- `datetime.fromtimestamp(ts, tz=timezone.utc).isoformat()[:10]`: the
`YYYY-MM-DD` date of the timestamp's UTC day, or `none` when the year falls
outside 1..9999 and `datetime` raises. -/
def utcIsoDate10 (ts : Int) : Option String :=
  if 0 ≤ (epochDays : Int) + Int.fdiv ts 86400 ∧
      (epochDays : Int) + Int.fdiv ts 86400 < (maxDays : Int) then
    Option.some (renderDate (civilFromDays ((epochDays : Int) + Int.fdiv ts 86400).toNat))
  else Option.none

/-- `get_last_modified_date(location)`: `""` unless `location` is a file, else
the first ten characters of the ISO UTC rendering of its mtime (`none` models
the `datetime` exception for out-of-range timestamps). -/
def get_last_modified_date (fs : FS) (location : String) : Option String :=
  if pyTruthy (is_file fs location) then utcIsoDate10 (fs.getmtime location)
  else Option.some ""

/-! ### The memoized recursive counter -/

/-- The `counting_functions` registry: metric name → single-file counting
callable; an unknown name raises `KeyError` (`none`). -/
def counting_functions (fs : FS) : String → Option (String → Nat)
  | "file_count" => Option.some fun _ => 1
  | "file_size" => Option.some fs.getsize
  | _ => Option.none

/-- An `FS` packaged with evidence that its directory structure is finite:
a height measure that strictly drops from a directory to each of its
enumerated children. Real filesystems satisfy this because the hard directory
structure is a finite tree (`counter` never follows symlinks into a cycle). -/
structure WFS where
  fs : FS
  height : String → Nat
  height_child : ∀ p n, pyTruthy (is_dir fs p) = true → n ∈ fs.children p →
    height (osJoin p n) < height p

/-- Python's `sum` over a generator whose elements may raise: `none` (an
exception) propagates, otherwise the numeric sum. -/
def optSum : List (Option Nat) → Option Nat
  | [] => Option.some 0
  | a :: rest => a.bind fun x => (optSum rest).map fun y => x + y

/-- `counter(location, counting_function)`: 0 unless `location` is a file or a
directory; for a file, the registry callable applied to the location; for a
directory, the sum of the recursive counts of its enumerated children joined
to it. -/
def counter (w : WFS) (location : String) (counting_function : String) : Option Nat :=
  if ¬ (pyTruthy (is_file w.fs location) = true ∨ pyTruthy (is_dir w.fs location) = true) then
    Option.some 0
  else if pyTruthy (is_file w.fs location) then
    match counting_functions w.fs counting_function with
    | Option.some count_fun => Option.some (count_fun location)
    | Option.none => Option.none
  else if h : pyTruthy (is_dir w.fs location) = true then
    optSum ((w.fs.children location).attach.map
      (fun x => counter w (osJoin location x.1) counting_function))
  else Option.some 0
termination_by w.height location
decreasing_by exact w.height_child location x.1 h x.2

/-- Modelled from the spec: the `@memoize` decorator (from
`commoncode.functional`, which is not under `src/`) caches results keyed by
the argument pair `(location, counting_function)`, populated lazily and never
evicted for the life of the process; a call whose key is cached returns the
stored value without recomputation, and a raised exception caches nothing. -/
def counterMemo (w : WFS) (cache : List ((String × String) × Nat))
    (location counting_function : String) :
    Option Nat × List ((String × String) × Nat) :=
  match cache.lookup (location, counting_function) with
  | Option.some v => (Option.some v, cache)
  | Option.none =>
    match counter w location counting_function with
    | Option.some v => (Option.some v, ((location, counting_function), v) :: cache)
    | Option.none => (Option.none, cache)

/-- `get_file_count(location)`: `counter(location, "file_count")` through the
cache. -/
def get_file_count (w : WFS) (cache : List ((String × String) × Nat)) (location : String) :
    Option Nat × List ((String × String) × Nat) :=
  counterMemo w cache location "file_count"

/-- `get_size(location)`: `counter(location, "file_size")` through the
cache. -/
def get_size (w : WFS) (cache : List ((String × String) × Nat)) (location : String) :
    Option Nat × List ((String × String) × Nat) :=
  counterMemo w cache location "file_size"

/-! ### Concrete example environments used to instantiate the theorems -/

/-- A small POSIX filesystem: directory `/d` containing a regular file `/d/f`
(5 bytes, mtime 2025-10-12 UTC), a symlink `/d/ln` → `f` to that file, a
broken symlink `/d/bl` → `missing`, and a symlink `/d/ue` whose target cannot
be read back (`os.readlink` raises `UnicodeEncodeError`); plus two more
directories used for permission checks: `/pd6` with read+write granted and
`/pd5` with read+execute granted. -/
def egFS : FS where
  islink p := p == "/d/ln" || p == "/d/bl" || p == "/d/ue"
  isfile p := p == "/d/f" || p == "/d/ln"
  isdir p := p == "/d" || p == "/pd6" || p == "/pd5"
  pexists p := p == "/d" || p == "/d/f" || p == "/d/ln" || p == "/pd6" || p == "/pd5"
  readlink p := if p == "/d/ln" then Option.some "f"
    else if p == "/d/bl" then Option.some "missing" else Option.none
  granted p := if p == "/d" then 7 else if p == "/d/f" then 6
    else if p == "/pd6" then 6 else if p == "/pd5" then 5 else 0
  getmtime _ := 1760227200
  getsize p := if p == "/d/f" then 5 else 0
  children p := if p == "/d" then ["f", "ln", "bl", "ue"] else []
  on_posix := true

/-- `egFS` packaged with its (trivial) finite-height evidence. -/
def egW : WFS where
  fs := egFS
  height p := if p == "/d" then 1 else 0
  height_child := by
    intro p n hd hc
    by_cases hp : p = "/d"
    · subst hp
      simp only [egFS] at hc
      norm_num at hc
      rcases hc with h | h | h | h <;> subst h <;> decide
    · exfalso
      have he : egFS.children p = [] := by
        simp only [egFS]
        rw [if_neg]
        simpa using hp
      rw [he] at hc
      exact (List.not_mem_nil n) hc

/-- A non-POSIX (Windows-like) environment: link support is absent. -/
def winFS : FS where
  islink _ := false
  isfile p := p == "/w/f"
  isdir p := p == "/w"
  pexists p := p == "/w" || p == "/w/f"
  readlink _ := Option.none
  granted p := if p == "/w" || p == "/w/f" then 7 else 0
  getmtime _ := 0
  getsize p := if p == "/w/f" then 3 else 0
  children p := if p == "/w" then ["f"] else []
  on_posix := false

/-- A filesystem holding one regular file `/f` whose mtime `253402300800` is
the first second of year 10000, out of `datetime`'s supported range. -/
def bigFS : FS where
  islink _ := false
  isfile p := p == "/f"
  isdir _ := false
  pexists p := p == "/f"
  readlink _ := Option.none
  granted p := if p == "/f" then 6 else 0
  getmtime _ := 253402300800
  getsize p := if p == "/f" then 9 else 0
  children _ := []
  on_posix := true

/-! ### Basic lemmas about Python truthiness and the classifiers -/

theorem pyTruthy_pyAnd (a b : PyVal) : pyTruthy (pyAnd a b) = (pyTruthy a && pyTruthy b) := by
  unfold pyAnd
  by_cases h : pyTruthy a = true <;> simp [h]

theorem pyTruthy_pyOr (a b : PyVal) : pyTruthy (pyOr a b) = (pyTruthy a || pyTruthy b) := by
  unfold pyOr
  by_cases h : pyTruthy a = true <;> simp [h]

theorem pyTruthy_pyNot (a : PyVal) : pyTruthy (pyNot a) = !pyTruthy a := rfl

theorem pyTruthy_bool (b : Bool) : pyTruthy (PyVal.bool b) = b := rfl

theorem is_link_truthy (fs : FS) (location : String) :
    pyTruthy (is_link fs location) = (pyTruthy (PyVal.str location) && fs.islink location) := by
  simp [is_link, pyTruthy_pyAnd, pyTruthy_bool]

theorem is_file_truthy (fs : FS) (location : String) :
    pyTruthy (is_file fs location) =
      (pyTruthy (PyVal.str location) && fs.isfile location &&
        !pyTruthy (is_link fs location) && !pyTruthy (is_broken_link fs location)) := by
  simp [is_file, pyTruthy_pyAnd, pyTruthy_pyNot, pyTruthy_bool]

theorem is_dir_truthy (fs : FS) (location : String) :
    pyTruthy (is_dir fs location) =
      (pyTruthy (PyVal.str location) && fs.isdir location && !pyTruthy (is_file fs location) &&
        !pyTruthy (is_link fs location) && !pyTruthy (is_broken_link fs location)) := by
  simp [is_dir, pyTruthy_pyAnd, pyTruthy_pyNot, pyTruthy_bool]

theorem is_regular_truthy (fs : FS) (location : String) :
    pyTruthy (is_regular fs location) =
      (pyTruthy (PyVal.str location) &&
        (pyTruthy (is_file fs location) || pyTruthy (is_dir fs location))) := by
  simp [is_regular, pyTruthy_pyAnd, pyTruthy_pyOr]

theorem is_special_truthy (fs : FS) (location : String) :
    pyTruthy (is_special fs location) = !pyTruthy (is_regular fs location) := by
  simp [is_special, pyTruthy_pyNot]

/-- A truthy result of any classifier forces a non-empty location. -/
theorem is_link_truthy_nonempty (fs : FS) (location : String)
    (h : pyTruthy (is_link fs location) = true) : pyTruthy (PyVal.str location) = true := by
  rw [is_link_truthy] at h
  exact (Bool.and_eq_true_iff.mp h).1

/-- A truthy `is_broken_link` happens only inside its POSIX-and-link branch. -/
theorem is_broken_link_truthy_link (fs : FS) (location : String)
    (h : pyTruthy (is_broken_link fs location) = true) :
    fs.on_posix = true ∧ pyTruthy (is_link fs location) = true := by
  unfold is_broken_link at h
  by_cases hc : (fs.on_posix && pyTruthy (is_link fs location)) = true
  · exact Bool.and_eq_true_iff.mp hc
  · rw [if_neg hc] at h
    exact absurd h (by decide)

/-- A link is never a file (non-follow semantics). -/
theorem is_link_not_file (fs : FS) (location : String)
    (h : pyTruthy (is_link fs location) = true) : pyTruthy (is_file fs location) = false := by
  rw [is_file_truthy, h]
  simp

/-- A link is never a dir (non-follow semantics). -/
theorem is_link_not_dir (fs : FS) (location : String)
    (h : pyTruthy (is_link fs location) = true) : pyTruthy (is_dir fs location) = false := by
  rw [is_dir_truthy, h]
  simp

/-- A dir is never a file: `is_dir` tests `not is_file(location)` itself. -/
theorem is_dir_not_file (fs : FS) (location : String)
    (h : pyTruthy (is_dir fs location) = true) : pyTruthy (is_file fs location) = false := by
  rw [is_dir_truthy] at h
  have := Bool.and_eq_true_iff.mp h
  have := Bool.and_eq_true_iff.mp this.1
  have := Bool.and_eq_true_iff.mp this.1
  simpa using this.2

/-- A truthy `is_dir` forces a non-empty location. -/
theorem is_dir_truthy_nonempty (fs : FS) (location : String)
    (h : pyTruthy (is_dir fs location) = true) : pyTruthy (PyVal.str location) = true := by
  rw [is_dir_truthy] at h
  have := Bool.and_eq_true_iff.mp h
  have := Bool.and_eq_true_iff.mp this.1
  have := Bool.and_eq_true_iff.mp this.1
  exact (Bool.and_eq_true_iff.mp this.1).1

/-- A truthy `is_file` forces a non-empty location. -/
theorem is_file_truthy_nonempty (fs : FS) (location : String)
    (h : pyTruthy (is_file fs location) = true) : pyTruthy (PyVal.str location) = true := by
  rw [is_file_truthy] at h
  have := Bool.and_eq_true_iff.mp h
  have := Bool.and_eq_true_iff.mp this.1
  exact (Bool.and_eq_true_iff.mp this.1).1

/-- A file is never a dir. -/
theorem is_file_not_dir (fs : FS) (location : String)
    (h : pyTruthy (is_file fs location) = true) : pyTruthy (is_dir fs location) = false := by
  cases hd : pyTruthy (is_dir fs location)
  · rfl
  · rw [is_dir_not_file fs location hd] at h
    exact absurd h (by decide)

/-- For a truthy `is_link`, `get_type` answers at the first registry entry. -/
theorem get_type_link (fs : FS) (location : String)
    (hl : pyTruthy (is_link fs location) = true) (short : Bool) :
    get_type fs location short = Option.some (if short then "l" else "link") := by
  have hne := is_link_truthy_nonempty fs location hl
  unfold get_type
  rw [if_pos hne]
  simp [TYPES, getTypeLoop, runChecker, hl]

/-- C1: the claim says `get_type` returns absent for an empty or non-existent
path. The code only does so for an empty path: on a non-empty path that does
not exist at all (no lstat entry: not a link, file, or dir), `is_special` —
the mere complement of `is_regular` — is truthy, so `get_type` returns the
"special" classification, contradicting its own docstring ("Return the type
of the `location` or None if it does not exist"). Evaluated here at the
failing input `/nope` of the example filesystem. -/
theorem get_type_nonexistent_is_special :
    egFS.islink "/nope" = false ∧ egFS.isfile "/nope" = false ∧
    egFS.isdir "/nope" = false ∧ egFS.pexists "/nope" = false ∧
    get_type egFS "/nope" true = Option.some "s" ∧
    get_type egFS "/nope" false = Option.some "special" ∧
    get_type egFS "" true = Option.none ∧
    get_type egFS "" false = Option.none := by
  decide

/-- C2 (counterexample): `/d/ln` of the example filesystem is a symlink to an
existing file; it exists, and both `is_link` and `is_special` are truthy for
it, so "exactly one of is_link, is_file, is_dir, is_special" fails. -/
theorem classification_partition_cex :
    egFS.pexists "/d/ln" = true ∧
    pyTruthy (is_link egFS "/d/ln") = true ∧
    pyTruthy (is_special egFS "/d/ln") = true := by
  decide

/-- C2 (amended): for every non-empty path, exactly one of `is_file`,
`is_dir`, `is_special` is truthy — non-existent paths land in the
`is_special` class — and `is_link` is not a partition member: a truthy
`is_link` always comes with a truthy `is_special`. -/
theorem classification_partition (fs : FS) (location : String)
    (h : pyTruthy (PyVal.str location) = true) :
    ((pyTruthy (is_file fs location) = true ∧ pyTruthy (is_dir fs location) = false ∧
        pyTruthy (is_special fs location) = false) ∨
     (pyTruthy (is_file fs location) = false ∧ pyTruthy (is_dir fs location) = true ∧
        pyTruthy (is_special fs location) = false) ∨
     (pyTruthy (is_file fs location) = false ∧ pyTruthy (is_dir fs location) = false ∧
        pyTruthy (is_special fs location) = true)) ∧
    (pyTruthy (is_link fs location) = true → pyTruthy (is_special fs location) = true) := by
  constructor
  · cases hf : pyTruthy (is_file fs location)
    · cases hd : pyTruthy (is_dir fs location)
      · right; right
        refine ⟨rfl, rfl, ?_⟩
        rw [is_special_truthy, is_regular_truthy, hf, hd, h]
        rfl
      · right; left
        refine ⟨rfl, rfl, ?_⟩
        rw [is_special_truthy, is_regular_truthy, hf, hd, h]
        rfl
    · left
      refine ⟨rfl, is_file_not_dir fs location hf, ?_⟩
      rw [is_special_truthy, is_regular_truthy, hf, h]
      rfl
  · intro hl
    rw [is_special_truthy, is_regular_truthy, is_link_not_file fs location hl,
      is_link_not_dir fs location hl, h]
    rfl

/-- C2 (witness): the partition at the plain file `/d/f` of the example
filesystem. -/
theorem classification_partition_witness :
    pyTruthy (PyVal.str "/d/f") = true ∧
    (((pyTruthy (is_file egFS "/d/f") = true ∧ pyTruthy (is_dir egFS "/d/f") = false ∧
        pyTruthy (is_special egFS "/d/f") = false) ∨
      (pyTruthy (is_file egFS "/d/f") = false ∧ pyTruthy (is_dir egFS "/d/f") = true ∧
        pyTruthy (is_special egFS "/d/f") = false) ∨
      (pyTruthy (is_file egFS "/d/f") = false ∧ pyTruthy (is_dir egFS "/d/f") = false ∧
        pyTruthy (is_special egFS "/d/f") = true)) ∧
     (pyTruthy (is_link egFS "/d/f") = true → pyTruthy (is_special egFS "/d/f") = true)) :=
  ⟨by decide, classification_partition egFS "/d/f" (by decide)⟩

/-- C3 (counterexample): `/pd6` is a directory with read and write (but not
execute) granted, yet `is_writable` is falsy; `/pd5` is a directory with read
and execute (but not write) granted, yet `is_executable` is falsy. So the
claimed R+W / R+X directory tests do not match the code. -/
theorem permission_mode_bits_cex :
    pyTruthy (is_dir egFS "/pd6") = true ∧
    osAccess egFS "/pd6" (R_OK ||| W_OK) = true ∧
    pyTruthy (is_writable egFS "/pd6") = false ∧
    pyTruthy (is_dir egFS "/pd5") = true ∧
    osAccess egFS "/pd5" (R_OK ||| X_OK) = true ∧
    pyTruthy (is_executable egFS "/pd5") = false := by
  decide

/-- C3 (amended): for a directory, `is_writable` and `is_executable` both
test read, write and execute together (R+W+X); for a plain file, `is_writable`
tests R+W together and `is_executable` tests only X. -/
theorem permission_mode_bits (fs : FS) (location : String) :
    (pyTruthy (is_dir fs location) = true →
        is_writable fs location = PyVal.bool (osAccess fs location (R_OK ||| W_OK ||| X_OK)) ∧
        is_executable fs location = PyVal.bool (osAccess fs location (R_OK ||| W_OK ||| X_OK))) ∧
    (pyTruthy (is_file fs location) = true →
        is_writable fs location = PyVal.bool (osAccess fs location (R_OK ||| W_OK)) ∧
        is_executable fs location = PyVal.bool (osAccess fs location X_OK)) := by
  constructor
  · intro hd
    have hne := is_dir_truthy_nonempty fs location hd
    unfold is_writable is_executable
    rw [if_pos hne, if_pos hd, if_pos hne, if_pos hd]
    exact ⟨rfl, rfl⟩
  · intro hf
    have hne := is_file_truthy_nonempty fs location hf
    have hd := is_file_not_dir fs location hf
    unfold is_writable is_executable
    rw [if_pos hne, if_pos hne, if_neg (by simp [hd]), if_neg (by simp [hd])]
    exact ⟨rfl, rfl⟩

/-- C3 (witness): the amended permission tests at the directory `/pd6` and the
plain file `/d/f`. -/
theorem permission_mode_bits_witness :
    (pyTruthy (is_dir egFS "/pd6") = true ∧
      (is_writable egFS "/pd6" = PyVal.bool (osAccess egFS "/pd6" (R_OK ||| W_OK ||| X_OK)) ∧
       is_executable egFS "/pd6" = PyVal.bool (osAccess egFS "/pd6" (R_OK ||| W_OK ||| X_OK)))) ∧
    (pyTruthy (is_file egFS "/d/f") = true ∧
      (is_writable egFS "/d/f" = PyVal.bool (osAccess egFS "/d/f" (R_OK ||| W_OK)) ∧
       is_executable egFS "/d/f" = PyVal.bool (osAccess egFS "/d/f" X_OK))) :=
  ⟨⟨by decide, (permission_mode_bits egFS "/pd6").1 (by decide)⟩,
   ⟨by decide, (permission_mode_bits egFS "/d/f").2 (by decide)⟩⟩

/-- C6 (counterexample): on an empty path `is_special` is truthy (it is the
bare complement of `is_regular`, and `not ""` is `True` in Python), so not
every classification operation yields a negative result there. -/
theorem empty_location_cex :
    pyTruthy (is_special egFS "") = true ∧ is_special egFS "" = PyVal.bool true := by
  decide

/-- C6 (amended): on an empty path every classification and permission
operation returns a negative/empty result and never raises — `is_link`,
`is_file`, `is_dir`, `is_regular` are falsy, `is_readable`, `is_writable`,
`is_executable` and `is_rwx` return `None`, `get_type` is absent — with the
single exception of `is_special`, which returns `True` on an empty path. -/
theorem empty_location_results (fs : FS) (short : Bool) :
    is_link fs "" = PyVal.str "" ∧ pyTruthy (is_link fs "") = false ∧
    pyTruthy (is_file fs "") = false ∧ pyTruthy (is_dir fs "") = false ∧
    pyTruthy (is_regular fs "") = false ∧
    is_readable fs "" = PyVal.none ∧ is_writable fs "" = PyVal.none ∧
    is_executable fs "" = PyVal.none ∧ is_rwx fs "" = PyVal.none ∧
    get_type fs "" short = Option.none ∧
    is_special fs "" = PyVal.bool true :=
  ⟨rfl, rfl, rfl, rfl, rfl, rfl, rfl, rfl, rfl, rfl, rfl⟩

/-- C7: `get_link_target` returns `""` when the path is not a link, when the
platform has no link support, and when reading the target fails with an
encoding error; in the encoding-failure case `is_broken_link` is falsy
(not-broken). Both operations are total — the error is never propagated. -/
theorem link_target_error_handling (fs : FS) (location : String) :
    (pyTruthy (is_link fs location) = false → get_link_target fs location = "") ∧
    (fs.on_posix = false → get_link_target fs location = "") ∧
    (fs.readlink location = Option.none →
      get_link_target fs location = "" ∧ pyTruthy (is_broken_link fs location) = false) := by
  refine ⟨?_, ?_, ?_⟩
  · intro h
    unfold get_link_target
    rw [if_neg]
    simp [h]
  · intro h
    unfold get_link_target
    rw [if_neg]
    simp [h]
  · intro h
    have htarget : get_link_target fs location = "" := by
      unfold get_link_target
      by_cases hc : (fs.on_posix && pyTruthy (is_link fs location)) = true
      · rw [if_pos hc, h]
      · rw [if_neg hc]
    refine ⟨htarget, ?_⟩
    unfold is_broken_link
    by_cases hc : (fs.on_posix && pyTruthy (is_link fs location)) = true
    · rw [if_pos hc]
      simp only [htarget]
      rfl
    · rw [if_neg hc]
      rfl

/-- C7 (witness): the three cases at concrete inputs — non-link `/d/f`,
non-POSIX platform, and the link `/d/ue` whose target read raises an encoding
error. -/
theorem link_target_error_handling_witness :
    (pyTruthy (is_link egFS "/d/f") = false ∧ get_link_target egFS "/d/f" = "") ∧
    (winFS.on_posix = false ∧ get_link_target winFS "/w/f" = "") ∧
    (egFS.readlink "/d/ue" = Option.none ∧
      (get_link_target egFS "/d/ue" = "" ∧ pyTruthy (is_broken_link egFS "/d/ue") = false)) :=
  ⟨⟨by decide, (link_target_error_handling egFS "/d/f").1 (by decide)⟩,
   ⟨rfl, (link_target_error_handling winFS "/w/f").2.1 rfl⟩,
   ⟨by decide, (link_target_error_handling egFS "/d/ue").2.2 (by decide)⟩⟩

/-- C9: a broken symbolic link is classified by `get_type` as a link
(`l` / `link`), not as special, because the link checker comes first in the
fixed dispatch order, even though `is_special` is also truthy for it. -/
theorem broken_link_is_link_type (fs : FS) (location : String)
    (h : pyTruthy (is_broken_link fs location) = true) :
    get_type fs location true = Option.some "l" ∧
    get_type fs location false = Option.some "link" ∧
    pyTruthy (is_link fs location) = true ∧
    pyTruthy (is_special fs location) = true := by
  have hl := (is_broken_link_truthy_link fs location h).2
  have hne := is_link_truthy_nonempty fs location hl
  have hs : pyTruthy (is_special fs location) = true := by
    rw [is_special_truthy, is_regular_truthy, is_link_not_file fs location hl,
      is_link_not_dir fs location hl, hne]
    rfl
  refine ⟨?_, ?_, hl, hs⟩
  · rw [get_type_link fs location hl true]
    rfl
  · rw [get_type_link fs location hl false]
    rfl

/-- C9 (witness): the broken link `/d/bl` of the example filesystem. -/
theorem broken_link_is_link_type_witness :
    pyTruthy (is_broken_link egFS "/d/bl") = true ∧
    (get_type egFS "/d/bl" true = Option.some "l" ∧
     get_type egFS "/d/bl" false = Option.some "link" ∧
     pyTruthy (is_link egFS "/d/bl") = true ∧
     pyTruthy (is_special egFS "/d/bl") = true) :=
  ⟨by decide, broken_link_is_link_type egFS "/d/bl" (by decide)⟩

/-- C10: negative results at the public interface are falsy but not the
boolean `False`: on an empty path `is_link` returns the path value itself and
the three permission checks return `None`; `is_broken_link` returns `None`
when the platform lacks link support or the path is not a link; and those
values differ from `False` by identity while being falsy. -/
theorem falsy_results_not_False (fs : FS) :
    is_link fs "" = PyVal.str "" ∧
    is_readable fs "" = PyVal.none ∧ is_writable fs "" = PyVal.none ∧
    is_executable fs "" = PyVal.none ∧
    (∀ location, fs.on_posix = false → is_broken_link fs location = PyVal.none) ∧
    (∀ location, pyTruthy (is_link fs location) = false →
      is_broken_link fs location = PyVal.none) ∧
    PyVal.str "" ≠ PyVal.bool false ∧ PyVal.none ≠ PyVal.bool false ∧
    pyTruthy (PyVal.str "") = false ∧ pyTruthy PyVal.none = false := by
  refine ⟨rfl, rfl, rfl, rfl, ?_, ?_, by decide, by decide, rfl, rfl⟩
  · intro location h
    unfold is_broken_link
    rw [if_neg]
    simp [h]
  · intro location h
    unfold is_broken_link
    rw [if_neg]
    simp [h]

/-- C10 (witness): `is_broken_link` returns `None` on the non-POSIX platform
and on a POSIX non-link. -/
theorem falsy_results_not_False_witness :
    is_broken_link winFS "/w/f" = PyVal.none ∧ is_broken_link egFS "/d/f" = PyVal.none :=
  ⟨(falsy_results_not_False winFS).2.2.2.2.1 "/w/f" rfl,
   (falsy_results_not_False egFS).2.2.2.2.2.1 "/d/f" (by decide)⟩

/-! ### The counter's case equations -/

theorem counter_not_regular (w : WFS) (location cf : String)
    (hf : pyTruthy (is_file w.fs location) = false)
    (hd : pyTruthy (is_dir w.fs location) = false) :
    counter w location cf = Option.some 0 := by
  rw [counter]
  simp [hf, hd]

theorem counter_file (w : WFS) (location cf : String)
    (hf : pyTruthy (is_file w.fs location) = true) :
    counter w location cf =
      match counting_functions w.fs cf with
      | Option.some count_fun => Option.some (count_fun location)
      | Option.none => Option.none := by
  rw [counter]
  simp [hf]

theorem counter_dir (w : WFS) (location cf : String)
    (hd : pyTruthy (is_dir w.fs location) = true) :
    counter w location cf =
      optSum ((w.fs.children location).map fun n => counter w (osJoin location n) cf) := by
  have hf := is_dir_not_file w.fs location hd
  rw [counter]
  simp only [hf, hd]
  simp [List.attach_map_coe]

/-- C4: the aggregator returns the metric's single-file contribution (1 for
`file_count`, the byte size for `file_size`) on a file, the sum of itself
over the enumerated children joined to the parent path on a directory, and
0 on anything else (links, broken links, special files, absent paths). -/
theorem counter_aggregation (w : WFS) (location : String) :
    (pyTruthy (is_file w.fs location) = true →
        counter w location "file_count" = Option.some 1 ∧
        counter w location "file_size" = Option.some (w.fs.getsize location)) ∧
    (pyTruthy (is_dir w.fs location) = true → ∀ counting_function,
        counter w location counting_function =
          optSum ((w.fs.children location).map fun n =>
            counter w (osJoin location n) counting_function)) ∧
    (pyTruthy (is_file w.fs location) = false → pyTruthy (is_dir w.fs location) = false →
      ∀ counting_function, counter w location counting_function = Option.some 0) := by
  refine ⟨fun hf => ⟨?_, ?_⟩, fun hd cf => counter_dir w location cf hd,
    fun hf hd cf => counter_not_regular w location cf hf hd⟩
  · rw [counter_file w location _ hf]
    simp [counting_functions]
  · rw [counter_file w location _ hf]
    simp [counting_functions]

/-- C4 (witness): the three cases on the example tree — the 5-byte file
`/d/f`, the directory `/d`, and the broken link `/d/bl`. -/
theorem counter_aggregation_witness :
    (pyTruthy (is_file egW.fs "/d/f") = true ∧
      (counter egW "/d/f" "file_count" = Option.some 1 ∧
       counter egW "/d/f" "file_size" = Option.some (egW.fs.getsize "/d/f"))) ∧
    (pyTruthy (is_dir egW.fs "/d") = true ∧
      counter egW "/d" "file_count" =
        optSum ((egW.fs.children "/d").map fun n => counter egW (osJoin "/d" n) "file_count")) ∧
    (pyTruthy (is_file egW.fs "/d/bl") = false ∧ pyTruthy (is_dir egW.fs "/d/bl") = false ∧
      counter egW "/d/bl" "file_count" = Option.some 0) :=
  ⟨⟨by decide, (counter_aggregation egW "/d/f").1 (by decide)⟩,
   ⟨by decide, (counter_aggregation egW "/d").2.1 (by decide) "file_count"⟩,
   ⟨by decide, by decide,
    (counter_aggregation egW "/d/bl").2.2 (by decide) (by decide) "file_count"⟩⟩

/-- C5: a second aggregator call with the same `(location, metric)` pair on an
unchanged filesystem returns the identical result and leaves the cache
unchanged; moreover once the first call succeeded, the repeat is answered
from the cache alone — for any filesystem whatsoever (`w2`), i.e. without
walking the filesystem again. -/
theorem counterMemo_repeat (w : WFS) (cache : List ((String × String) × Nat))
    (location counting_function : String) :
    counterMemo w (counterMemo w cache location counting_function).2 location counting_function =
      counterMemo w cache location counting_function ∧
    (∀ v, (counterMemo w cache location counting_function).1 = Option.some v →
      ∀ w2 : WFS,
        counterMemo w2 (counterMemo w cache location counting_function).2 location
            counting_function =
          (Option.some v, (counterMemo w cache location counting_function).2)) := by
  unfold counterMemo
  cases hl : cache.lookup (location, counting_function) with
  | some v => simp [hl]
  | none =>
    cases hc : counter w location counting_function with
    | some v => simp [hl, hc, List.lookup]
    | none => simp [hl, hc]

/-- C5 (witness): two calls for `("/d/f", "file_count")` starting from an
empty cache. -/
theorem counterMemo_repeat_witness :
    (counterMemo egW [] "/d/f" "file_count").1 = Option.some 1 ∧
    counterMemo egW (counterMemo egW [] "/d/f" "file_count").2 "/d/f" "file_count" =
      (Option.some 1, (counterMemo egW [] "/d/f" "file_count").2) := by
  have h1 : (counterMemo egW [] "/d/f" "file_count").1 = Option.some 1 := by
    rw [counterMemo, counter]
    decide
  exact ⟨h1, (counterMemo_repeat egW [] "/d/f" "file_count").2 1 h1 egW⟩

/-! ### Calendar lemmas: the year/month stripping inverts the day count -/

theorem yearLength_pos (y : Nat) : 365 ≤ yearLength y := by
  unfold yearLength
  split <;> omega

theorem daysBeforeYear_succ (y : Nat) (h : 1 ≤ y) :
    daysBeforeYear (y + 1) = daysBeforeYear y + yearLength y := by
  have e : daysBeforeYear (y + 1) =
      if y = 0 then 0 else daysBeforeYear y + yearLength y := rfl
  rw [e, if_neg (by omega)]

theorem daysBeforeMonth_succ (y m : Nat) (h : 1 ≤ m) :
    daysBeforeMonth y (m + 1) = daysBeforeMonth y m + monthLength y m := by
  have e : daysBeforeMonth y (m + 1) =
      if m = 0 then 0 else daysBeforeMonth y m + monthLength y m := rfl
  rw [e, if_neg (by omega)]

theorem daysBeforeYear_mono (a b : Nat) (h1 : 1 ≤ a) (h : a ≤ b) :
    daysBeforeYear a ≤ daysBeforeYear b := by
  induction b with
  | zero => exact absurd (Nat.le_trans h1 h) (by omega)
  | succ n ih =>
    rcases Nat.lt_or_ge a (n + 1) with hlt | hge
    · have hn1 : 1 ≤ n := by omega
      calc daysBeforeYear a ≤ daysBeforeYear n := ih (by omega)
        _ ≤ daysBeforeYear n + yearLength n := Nat.le_add_right _ _
        _ = daysBeforeYear (n + 1) := (daysBeforeYear_succ n hn1).symm
    · have : a = n + 1 := by omega
      subst this
      exact Nat.le_refl _

/-- The leap rule in divisibility form. -/
theorem yearLength_eq (y : Nat) :
    yearLength y = if (4 ∣ y ∧ ¬ 100 ∣ y) ∨ 400 ∣ y then 366 else 365 := by
  unfold yearLength isLeap
  rcases Nat.decEq (y % 4) 0 with h4 | h4 <;>
    rcases Nat.decEq (y % 100) 0 with h100 | h100 <;>
      rcases Nat.decEq (y % 400) 0 with h400 | h400 <;>
        simp [h4, h100, h400, Nat.dvd_iff_mod_eq_zero]

/-- Closed form of the cumulative year length sum (the same closed form the
Python `datetime` module uses internally). -/
theorem daysBeforeYear_closed (y : Nat) :
    daysBeforeYear (y + 1) = 365 * y + y / 4 - y / 100 + y / 400 := by
  induction y with
  | zero => rfl
  | succ n ih =>
    rw [daysBeforeYear_succ (n + 1) (by omega), ih, yearLength_eq (n + 1)]
    rw [Nat.succ_div n 4, Nat.succ_div n 100, Nat.succ_div n 400]
    have hd1 : (4 : Nat) ∣ 100 := by omega
    have hd2 : (100 : Nat) ∣ 400 := by omega
    have hd3 : (4 : Nat) ∣ 400 := by omega
    by_cases h4 : 4 ∣ (n + 1) <;> by_cases h100 : 100 ∣ (n + 1) <;>
      by_cases h400 : 400 ∣ (n + 1)
    all_goals
      first
      | exact absurd (Nat.dvd_trans hd3 h400) h4
      | exact absurd (Nat.dvd_trans hd2 h400) h100
      | (simp only [h4, h100, h400, if_pos, if_neg, ite_true, ite_false,
          not_true, not_false_iff, and_true, and_false, true_and, false_and,
          or_true, or_false, true_or, false_or, if_true, if_false]
         omega)

/-- `maxDays` is exactly the cumulative length of years 1..9999: the first
rejected day is 10000-01-01. -/
theorem daysBeforeYear_10000 : daysBeforeYear 10000 = maxDays := by
  have h := daysBeforeYear_closed 9999
  norm_num at h
  rw [show (10000 : Nat) = 9999 + 1 from rfl, h]
  rfl

/-- The twelve months of a year sum to its length. -/
theorem daysBeforeMonth_13 (y : Nat) : daysBeforeMonth y 13 = yearLength y := by
  have e : ∀ m, 1 ≤ m →
      daysBeforeMonth y (m + 1) = daysBeforeMonth y m + monthLength y m :=
    fun m hm => daysBeforeMonth_succ y m hm
  rw [show (13 : Nat) = 12 + 1 from rfl, e 12 (by omega),
    show (12 : Nat) = 11 + 1 from rfl, e 11 (by omega),
    show (11 : Nat) = 10 + 1 from rfl, e 10 (by omega),
    show (10 : Nat) = 9 + 1 from rfl, e 9 (by omega),
    show (9 : Nat) = 8 + 1 from rfl, e 8 (by omega),
    show (8 : Nat) = 7 + 1 from rfl, e 7 (by omega),
    show (7 : Nat) = 6 + 1 from rfl, e 6 (by omega),
    show (6 : Nat) = 5 + 1 from rfl, e 5 (by omega),
    show (5 : Nat) = 4 + 1 from rfl, e 4 (by omega),
    show (4 : Nat) = 3 + 1 from rfl, e 3 (by omega),
    show (3 : Nat) = 2 + 1 from rfl, e 2 (by omega),
    show (2 : Nat) = 1 + 1 from rfl, e 1 (by omega)]
  have h1 : daysBeforeMonth y 1 = 0 := rfl
  rw [h1]
  unfold monthLength yearLength
  by_cases h : isLeap y = true <;> simp [h]

/-- Invariant of the fuelled year stripper: it lands in a year whose length
exceeds the residual day offset and preserves the total day count. -/
theorem stripYearsGo_spec (fuel : Nat) : ∀ y n, n ≤ fuel → 1 ≤ y →
    1 ≤ (stripYearsGo fuel y n).1 ∧
    (stripYearsGo fuel y n).2 < yearLength (stripYearsGo fuel y n).1 ∧
    daysBeforeYear (stripYearsGo fuel y n).1 + (stripYearsGo fuel y n).2 =
      daysBeforeYear y + n := by
  induction fuel with
  | zero =>
    intro y n hn hy
    have hn0 : n = 0 := Nat.le_zero.mp hn
    subst hn0
    have h365 := yearLength_pos y
    exact ⟨hy, by simpa [stripYearsGo] using (by omega : 0 < yearLength y), rfl⟩
  | succ fuel ih =>
    intro y n hn hy
    by_cases h : yearLength y ≤ n
    · have hrec : stripYearsGo (fuel + 1) y n =
          stripYearsGo fuel (y + 1) (n - yearLength y) := by
        simp [stripYearsGo, h]
      have h365 := yearLength_pos y
      have hspec := ih (y + 1) (n - yearLength y) (by omega) (by omega)
      rw [hrec]
      refine ⟨hspec.1, hspec.2.1, ?_⟩
      rw [hspec.2.2, daysBeforeYear_succ y hy]
      omega
    · have hrec : stripYearsGo (fuel + 1) y n = (y, n) := by
        simp [stripYearsGo, h]
      rw [hrec]
      exact ⟨hy, show n < yearLength y by omega, rfl⟩

/-- Invariant of the fuelled month stripper: starting anywhere in 1..12 with
enough fuel to reach month 12 and a day offset inside the year's remainder,
it lands on a valid month with a residual smaller than that month. -/
theorem stripMonthsGo_spec (fuel : Nat) : ∀ y m n, 1 ≤ m → m ≤ 12 → 12 ≤ m + fuel →
    daysBeforeMonth y m + n < daysBeforeMonth y 13 →
    1 ≤ (stripMonthsGo fuel y m n).1 ∧ (stripMonthsGo fuel y m n).1 ≤ 12 ∧
    (stripMonthsGo fuel y m n).2 < monthLength y (stripMonthsGo fuel y m n).1 ∧
    daysBeforeMonth y (stripMonthsGo fuel y m n).1 + (stripMonthsGo fuel y m n).2 =
      daysBeforeMonth y m + n := by
  induction fuel with
  | zero =>
    intro y m n h1 h12 hfuel hbound
    have hm : m = 12 := by omega
    subst hm
    have h13 : daysBeforeMonth y 13 = daysBeforeMonth y 12 + monthLength y 12 :=
      daysBeforeMonth_succ y 12 (by omega)
    rw [h13] at hbound
    exact ⟨show (1 : Nat) ≤ 12 by omega, show (12 : Nat) ≤ 12 by omega,
      show n < monthLength y 12 by omega, rfl⟩
  | succ fuel ih =>
    intro y m n h1 h12 hfuel hbound
    by_cases h : m < 12 ∧ monthLength y m ≤ n
    · have hrec : stripMonthsGo (fuel + 1) y m n =
          stripMonthsGo fuel y (m + 1) (n - monthLength y m) := by
        simp [stripMonthsGo, h]
      have hsucc := daysBeforeMonth_succ y m h1
      have hspec := ih y (m + 1) (n - monthLength y m) (by omega) (by omega) (by omega)
        (by omega)
      rw [hrec]
      refine ⟨hspec.1, hspec.2.1, hspec.2.2.1, ?_⟩
      rw [hspec.2.2.2, hsucc]
      omega
    · have hrec : stripMonthsGo (fuel + 1) y m n = (m, n) := by
        simp only [stripMonthsGo]
        rw [if_neg h]
      rw [hrec]
      rcases Decidable.not_and_iff_or_not.mp h with hm | hn
      · have hm12 : m = 12 := by omega
        subst hm12
        have h13 : daysBeforeMonth y 13 = daysBeforeMonth y 12 + monthLength y 12 :=
          daysBeforeMonth_succ y 12 (by omega)
        rw [h13] at hbound
        exact ⟨show (1 : Nat) ≤ 12 by omega, show (12 : Nat) ≤ 12 by omega,
          show n < monthLength y 12 by omega, rfl⟩
      · exact ⟨h1, h12, show n < monthLength y m by omega, rfl⟩

/-- The stripping pair is a right inverse of the cumulative day count on the
supported range, and always produces a valid date with a year below 10000. -/
theorem civilFromDays_spec (n : Nat) (hn : n < maxDays) :
    isValidDate (civilFromDays n).1 (civilFromDays n).2.1 (civilFromDays n).2.2 ∧
    (civilFromDays n).1 ≤ 9999 ∧
    daysFromCivil (civilFromDays n).1 (civilFromDays n).2.1 (civilFromDays n).2.2 = n := by
  have hy := stripYearsGo_spec n 1 n (Nat.le_refl n) (by omega)
  have hye : stripYears 1 n = stripYearsGo n 1 n := rfl
  have hdb1 : daysBeforeYear 1 = 0 := rfl
  rw [← hye, hdb1] at hy
  have hdoy : (stripYears 1 n).2 < daysBeforeMonth (stripYears 1 n).1 13 := by
    rw [daysBeforeMonth_13]
    exact hy.2.1
  have hdbm1 : daysBeforeMonth (stripYears 1 n).1 1 = 0 := rfl
  have hm := stripMonthsGo_spec 12 (stripYears 1 n).1 1 (stripYears 1 n).2
    (by omega) (by omega) (by omega) (by omega)
  have hme : stripMonths (stripYears 1 n).1 1 (stripYears 1 n).2 =
      stripMonthsGo 12 (stripYears 1 n).1 1 (stripYears 1 n).2 := rfl
  rw [← hme, hdbm1] at hm
  have hc1 : (civilFromDays n).1 = (stripYears 1 n).1 := rfl
  have hc2 : (civilFromDays n).2.1 = (stripMonths (stripYears 1 n).1 1 (stripYears 1 n).2).1 :=
    rfl
  have hc3 : (civilFromDays n).2.2 =
      (stripMonths (stripYears 1 n).1 1 (stripYears 1 n).2).2 + 1 := rfl
  rw [hc1, hc2, hc3]
  unfold isValidDate daysFromCivil
  obtain ⟨hy1, hy2, hy3⟩ := hy
  obtain ⟨hm1, hm2, hm3, hm4⟩ := hm
  refine ⟨⟨hy1, hm1, hm2, by omega, by omega⟩, ?_, by omega⟩
  by_contra hbig
  have h10k : daysBeforeYear 10000 ≤ daysBeforeYear (stripYears 1 n).1 :=
    daysBeforeYear_mono 10000 (stripYears 1 n).1 (by omega) (by omega)
  rw [daysBeforeYear_10000] at h10k
  omega

/-- The rendering is always ten characters: 4 + 1 + 2 + 1 + 2. -/
theorem renderDate_length (t : Nat × Nat × Nat) : (renderDate t).length = 10 := by
  have h4 : (pad4 t.1).length = 4 := rfl
  have h2a : (pad2 t.2.1).length = 2 := rfl
  have h2b : (pad2 t.2.2).length = 2 := rfl
  have hdash : ("-" : String).length = 1 := rfl
  simp [renderDate, String.length_append, h4, h2a, h2b, hdash]

/-- C8 (counterexample): `/f` in `bigFS` is a plain file, but its mtime is the
first second of year 10000, where `datetime.fromtimestamp` raises instead of
returning a 10-character date string. -/
theorem get_last_modified_date_cex :
    pyTruthy (is_file bigFS "/f") = true ∧
    get_last_modified_date bigFS "/f" = Option.none := by
  decide

/-- C8 (amended): for a plain file whose modification day falls inside
`datetime`'s supported years 1..9999, the result is the 10-character
`YYYY-MM-DD` rendering of the valid calendar date lying exactly
`floor(mtime / 86400)` days after the Unix epoch (i.e. the UTC calendar date
of the timestamp); outside that range the conversion raises instead. For
every other path (directory, link, special, non-existent) the result is the
empty string. -/
theorem get_last_modified_date_spec (fs : FS) (location : String) :
    (pyTruthy (is_file fs location) = false →
      get_last_modified_date fs location = Option.some "") ∧
    (pyTruthy (is_file fs location) = true →
      ∀ s, get_last_modified_date fs location = Option.some s →
        s.length = 10 ∧
        ∃ y m d, isValidDate y m d ∧ y ≤ 9999 ∧ s = renderDate (y, m, d) ∧
          (daysFromCivil y m d : Int) =
            (epochDays : Int) + (fs.getmtime location).fdiv 86400) := by
  constructor
  · intro hf
    unfold get_last_modified_date
    rw [if_neg (by simp [hf])]
  · intro hf s hs
    unfold get_last_modified_date at hs
    rw [if_pos hf] at hs
    unfold utcIsoDate10 at hs
    by_cases hrange : 0 ≤ (epochDays : Int) + ((fs.getmtime location).fdiv 86400) ∧
        (epochDays : Int) + ((fs.getmtime location).fdiv 86400) < (maxDays : Int)
    · rw [if_pos hrange] at hs
      obtain ⟨h0, hlt⟩ := hrange
      have hNlt : ((epochDays : Int) + ((fs.getmtime location).fdiv 86400)).toNat < maxDays := by
        omega
      have hcast : ((((epochDays : Int) + ((fs.getmtime location).fdiv 86400)).toNat : Nat) :
          Int) = (epochDays : Int) + ((fs.getmtime location).fdiv 86400) := by
        omega
      have hspec := civilFromDays_spec _ hNlt
      have hs' : s =
          renderDate (civilFromDays
            (((epochDays : Int) + ((fs.getmtime location).fdiv 86400)).toNat)) := by
        injection hs with h
        exact h.symm
      refine ⟨by rw [hs']; exact renderDate_length _,
        ⟨(civilFromDays _).1, (civilFromDays _).2.1, (civilFromDays _).2.2,
          hspec.1, hspec.2.1, ?_, ?_⟩⟩
      · rw [hs']
      · rw [← hcast]
        exact congrArg (fun k : Nat => (k : Int)) hspec.2.2
    · rw [if_neg hrange] at hs
      exact absurd hs (by simp)

/-- C8 (witness): on the example filesystem, `/d` (a directory) yields `""`
and the file `/d/f` with mtime `1760227200` yields the in-range date
`2025-10-12`. -/
theorem get_last_modified_date_spec_witness :
    (pyTruthy (is_file egFS "/d") = false ∧
      get_last_modified_date egFS "/d" = Option.some "") ∧
    (pyTruthy (is_file egFS "/d/f") = true ∧
      get_last_modified_date egFS "/d/f" = Option.some "2025-10-12" ∧
      ("2025-10-12".length = 10 ∧
        ∃ y m d, isValidDate y m d ∧ y ≤ 9999 ∧ "2025-10-12" = renderDate (y, m, d) ∧
          (daysFromCivil y m d : Int) =
            (epochDays : Int) + (egFS.getmtime "/d/f").fdiv 86400)) :=
  ⟨⟨by decide, (get_last_modified_date_spec egFS "/d").1 (by decide)⟩,
   ⟨by decide, by set_option maxRecDepth 100000 in decide,
    (get_last_modified_date_spec egFS "/d/f").2 (by decide) "2025-10-12"
      (by set_option maxRecDepth 100000 in decide)⟩⟩
